import Mathlib

/-!
Shallow embedding of the transaction-coordination core of the
Swipe Appwrite functions repository, and proofs settling the frozen
claims about it.

Embedded code:
* `src/src/bookTicketAtomic.js` - ticket booking via native Appwrite
  transactions (`bookTicketAtomicRun`).
* `src/unnamed/part_001`, third function - booking with capability
  probing: `bookWithTransactions` (native) and
  `bookWithOptimisticLocking` (fallback saga with compensation).
* `src/unnamed/part_001`, first function - fully atomic user signup
  (`atomicSignup`).

Backend calls are modelled by explicit stores plus an error oracle:
each call site has an oracle field saying whether that call throws,
so one run of the Lean function corresponds to one execution of the
JavaScript function under a fixed pattern of backend outcomes.
JavaScript numbers are modelled as `Option Int` (`none` is NaN);
strings, `split`, `trim` and `parseInt` are modelled directly.
-/

namespace SwipeSpec

/-! ## JavaScript primitives -/

/-- A JavaScript number used in integer positions; `none` models NaN. -/
abbrev JNum := Option Int

/-- JS subtraction: NaN propagates. -/
def jsSub : JNum → JNum → JNum
  | some a, some b => some (a - b)
  | _, _ => none

/-- JS `Math.max(0, x)`: NaN propagates (`Math.max(0, NaN) = NaN`). -/
def jsMax0 : JNum → JNum
  | some a => some (max 0 a)
  | none => none

/-- JS `a < b`: any comparison with NaN is false. -/
def jsLt : JNum → JNum → Bool
  | some a, some b => a < b
  | _, _ => false

/-- Value of a digit list read left to right. -/
def digitsVal (cs : List Char) : Nat :=
  cs.foldl (fun acc c => acc * 10 + (c.toNat - 48)) 0

/-- Whitespace trim on a character list (kernel-reducible stand-in
for `String.trim`). -/
def trimChars (cs : List Char) : List Char :=
  ((cs.dropWhile Char.isWhitespace).reverse.dropWhile Char.isWhitespace).reverse

/-- JS `parseInt` on a string: skip surrounding whitespace, optional
sign, then the longest digit prefix; no digits gives NaN. -/
def jsParseInt (s : String) : JNum :=
  let core := fun (l : List Char) (sign : Int) =>
    let ds := l.takeWhile Char.isDigit
    if ds.isEmpty then (none : JNum) else some (sign * (digitsVal ds : Int))
  match trimChars s.toList with
  | '-' :: rest => core rest (-1)
  | '+' :: rest => core rest 1
  | cs => core cs 1

/-- JS `parseInt(x) || 0`: NaN collapses to 0. -/
def jsParseIntOr0 (s : String) : Int := (jsParseInt s).getD 0

/-- JS `toString()` on our numbers. -/
def jsNumToString : JNum → String
  | some n => toString n
  | none => "NaN"

/-- JS truthiness test for an optional string field of a parsed JSON
body: absent (`undefined`) and the empty string are falsy. -/
def falsy : Option String → Bool
  | none => true
  | some s => s.toList.isEmpty

/-- Split a character list at a separator character (kernel-reducible
stand-in for `String.split` with a one-character separator). -/
def splitChar (sep : Char) (cs : List Char) (cur : List Char) : List (List Char) :=
  match cs with
  | [] => [cur.reverse]
  | c :: rest =>
    if c = sep then cur.reverse :: splitChar sep rest []
    else splitChar sep rest (c :: cur)

/-- The category handling splits on the colon character and trims
each part: `str.split(sep).map(p => p.trim())`. -/
def splitTrim (s : String) : List String :=
  (splitChar ':' s.toList []).map fun l => String.mk (trimChars l)

/-! ## Shared data model -/

/-- Kinds of JS errors thrown by backend calls, as far as the catch
handlers distinguish them (`err.code === 409` or a conflict message;
a not-found message; a permission message; a duplicate or
already-exists message without any of the former; anything else). -/
inductive JsErr
  | notFound
  | conflict
  | permission
  | duplicate
  | generic
deriving DecidableEq, Repr

/-- Observable backend effects of one run, in order. -/
inductive Eff
  | readDoc (coll : String) (inCtx : Bool)
  | listDocs (coll : String) (inCtx : Bool)
  | stageCreate (coll : String) (id : String)
  | stageUpdate (coll : String) (id : String)
  | directCreate (coll : String) (id : String)
  | directUpdate (coll : String) (id : String)
  | directDelete (coll : String) (id : String)
  | upload (bucket : String) (id : String)
  | deleteFile (bucket : String) (id : String)
  | txnBegin
  | txnCommit
  | txnRollback
deriving DecidableEq, Repr

/-- A document in the `transactions` collection (the fields the
embedded code reads back: id, paymentId, ticketId). -/
structure TxDoc where
  id : String
  paymentId : String
  ticketId : String
deriving DecidableEq, Repr

/-- The ids `ID.unique()` returns for the ticket, transaction and
order documents of one run. -/
structure FreshIds where
  ticketId : String
  txDocId : String
  orderId : String
deriving DecidableEq, Repr

/-- Parsed request body of a booking call; absent fields are `none`. -/
structure BookInput where
  userId : Option String := none
  eventId : Option String := none
  paymentId : Option String := none
  quantity : Option String := none
  ticketTypeName : Option String := none
  providedTicketId : Option String := none
deriving DecidableEq, Repr

/-! ## Native booking: `src/src/bookTicketAtomic.js` -/

/-- An event document as read by `bookTicketAtomic`: `categories` is
an array of `name:price:qty:phase` strings. -/
structure EventDoc where
  id : String
  ticketsLeft : String
  categories : List String
deriving DecidableEq, Repr

/-- Document store backing `bookTicketAtomic`. -/
structure Store where
  tickets : List String
  transactions : List TxDoc
  orders : List String
  events : List EventDoc
deriving DecidableEq, Repr

/-- Transactions matching a payment id, in store order (the result of
`listDocuments(..., [Query.equal(paymentId, p)])`). -/
def txMatches (st : Store) (p : String) : List TxDoc :=
  st.transactions.filter (fun t => t.paymentId == p)

/-- Error oracle for one native-mode run: for each backend call site,
whether that call throws and with which error. -/
structure ErrOracle where
  createTxnErr : Option JsErr := none
  listTxErr : Option JsErr := none
  getEventErr : Option JsErr := none
  checkTicketErr : Option JsErr := none
  createTicketErr : Option JsErr := none
  createTxDocErr : Option JsErr := none
  createOrderErr : Option JsErr := none
  updateEventErr : Option JsErr := none
  commitErr : Option JsErr := none
  rollbackErr : Option JsErr := none
deriving DecidableEq, Repr

/-- Error code chosen by the catch handler of `bookTicketAtomic`
(lines 413 to 423); a bare duplicate message matches none of its
three patterns and keeps the default. -/
def catchCode : JsErr → String
  | .conflict => "CONFLICT_ERROR"
  | .notFound => "NOT_FOUND_ERROR"
  | .permission => "PERMISSION_ERROR"
  | .duplicate => "BOOKING_ERROR"
  | .generic => "BOOKING_ERROR"

/-- Result of one booking run: the JSON response fields the claims
mention, whether a transaction context was created, whether any
rollback call was issued, the final store and the effect trace. -/
structure BookResult where
  success : Bool
  code : String
  ticketId : Option String := none
  existingTicketId : Option String := none
  txnCreated : Bool := false
  rollbackAttempted : Bool := false
  store : Store
  trace : List Eff := []
deriving DecidableEq, Repr

/-- The catch handler of `bookTicketAtomic` (lines 380 to 432): if a
transaction context exists, attempt `updateTransaction(id, false)`
(its own failure is swallowed), then respond with the classified
error code. -/
def natCatch (e : JsErr) (txn : Bool) (st : Store) (tr : List Eff) : BookResult :=
  { success := false, code := catchCode e, txnCreated := txn,
    rollbackAttempted := txn, store := st,
    trace := if txn then tr ++ [Eff.txnRollback] else tr }

/-- Ticket-type availability scan of `bookTicketAtomic` (lines 159
to 168): walk the category strings, and on the first entry with at
least 3 colon-separated parts whose first part equals the requested
type name, report availability (`qty >= quantity`) and that quantity,
stopping there. -/
def checkTicketType (cats : List String) (nm : String) (q : Int) : Bool × Int :=
  match cats with
  | [] => (false, 0)
  | c :: rest =>
    let parts := splitTrim c
    if 3 ≤ parts.length ∧ parts.getD 0 "" = nm then
      let qty := jsParseIntOr0 (parts.getD 2 "")
      (decide (q ≤ qty), qty)
    else checkTicketType rest nm q

/-- Category rewrite staged by `bookTicketAtomic` (lines 321 to 332):
only entries with at least 4 parts and a matching name are rebuilt,
with the quantity clamped at zero; everything else is unchanged. -/
def updateCategories (cats : List String) (nm : String) (q : Int) : List String :=
  cats.map fun c =>
    let parts := splitTrim c
    if 4 ≤ parts.length ∧ parts.getD 0 "" = nm then
      let name := parts.getD 0 ""
      let formattedPrice := parts.getD 1 ""
      let currentQty := jsParseIntOr0 (parts.getD 2 "")
      let phase := parts.getD 3 ""
      let newQty := max 0 (currentQty - q)
      name ++ ":" ++ formattedPrice ++ ":" ++ toString newQty ++ ":" ++ phase
    else c

/-- `Math.max(0, currentTicketsLeft - quantityInt).toString()` of
`bookTicketAtomic` line 318 (both operands are non-NaN there, the
quantity having passed the `isNaN` check). -/
def newTicketsLeftNative (cur q : Int) : String := toString (max 0 (cur - q))

/-- Store state after the staged operations of a successful booking
are committed: ticket, transaction and order documents created and
the event rewritten. -/
def applyBookingNative (st : Store) (ev : EventDoc) (tid txid oid payId nm : String)
    (q : Int) : Store :=
  { tickets := st.tickets ++ [tid],
    transactions := st.transactions ++ [⟨txid, payId, tid⟩],
    orders := st.orders ++ [oid],
    events := st.events.map fun e =>
      if e.id == ev.id then
        { e with ticketsLeft := newTicketsLeftNative (jsParseIntOr0 ev.ticketsLeft) q,
                 categories := updateCategories ev.categories nm q }
      else e }

/-- Steps 5 to 9 of `bookTicketAtomic` (lines 231 to 378): stage the
three creates and the event update inside the context, then commit;
any throw lands in the catch handler. -/
def bookFinish (inp : BookInput) (tid : String) (ids : FreshIds) (st : Store)
    (o : ErrOracle) (q : Int) (ev : EventDoc) (tr : List Eff) : BookResult :=
  let tr1 := tr ++ [Eff.stageCreate "tickets" tid]
  match o.createTicketErr with
  | some e => natCatch e true st tr1
  | none =>
    let tr2 := tr1 ++ [Eff.stageCreate "transactions" ids.txDocId]
    match o.createTxDocErr with
    | some e => natCatch e true st tr2
    | none =>
      let tr3 := tr2 ++ [Eff.stageCreate "orders" ids.orderId]
      match o.createOrderErr with
      | some e => natCatch e true st tr3
      | none =>
        let tr4 := tr3 ++ [Eff.stageUpdate "events" ev.id]
        match o.updateEventErr with
        | some e => natCatch e true st tr4
        | none =>
          let tr5 := tr4 ++ [Eff.txnCommit]
          match o.commitErr with
          | some e => natCatch e true st tr5
          | none =>
            { success := true, code := "OK", ticketId := some tid,
              txnCreated := true,
              store := applyBookingNative st ev tid ids.txDocId ids.orderId
                (inp.paymentId.getD "") (inp.ticketTypeName.getD "") q,
              trace := tr5 }

/-- One run of `src/src/bookTicketAtomic.js`. Control flow follows
the source exactly: validation, quantity check, createTransaction,
duplicate-payment check inside the context (with rollback on a hit),
event read inside the context, inventory and ticket-type checks
(returning without rollback), optional provided-ticket-id check,
staged writes, commit. -/
def bookTicketAtomicRun (inp : BookInput) (ids : FreshIds) (st : Store)
    (o : ErrOracle) : BookResult :=
  if falsy inp.userId || falsy inp.eventId || falsy inp.paymentId ||
      falsy inp.quantity || falsy inp.ticketTypeName then
    { success := false, code := "VALIDATION_ERROR", store := st }
  else match jsParseInt (inp.quantity.getD "") with
  | none => { success := false, code := "INVALID_QUANTITY", store := st }
  | some q =>
    if q < 1 ∨ 10 < q then
      { success := false, code := "INVALID_QUANTITY", store := st }
    else match o.createTxnErr with
    | some e => natCatch e false st [Eff.txnBegin]
    | none =>
      let trA := [Eff.txnBegin, Eff.listDocs "transactions" true]
      match o.listTxErr with
      | some e => natCatch e true st trA
      | none =>
        match txMatches st (inp.paymentId.getD "") with
        | d :: _ =>
          match o.rollbackErr with
          | some e => natCatch e true st (trA ++ [Eff.txnRollback])
          | none =>
            { success := false, code := "DUPLICATE_PAYMENT",
              existingTicketId := some d.ticketId,
              txnCreated := true, rollbackAttempted := true, store := st,
              trace := trA ++ [Eff.txnRollback] }
        | [] =>
          let trB := trA ++ [Eff.readDoc "events" true]
          match o.getEventErr with
          | some e => natCatch e true st trB
          | none =>
            match st.events.find? (fun ev => ev.id == inp.eventId.getD "") with
            | none => natCatch JsErr.notFound true st trB
            | some ev =>
              let current := jsParseIntOr0 ev.ticketsLeft
              if current < q then
                { success := false, code := "INSUFFICIENT_TICKETS",
                  txnCreated := true, store := st, trace := trB }
              else if !(checkTicketType ev.categories (inp.ticketTypeName.getD "") q).1 then
                { success := false, code := "TICKET_TYPE_UNAVAILABLE",
                  txnCreated := true, store := st, trace := trB }
              else
                match inp.providedTicketId with
                | none => bookFinish inp ids.ticketId ids st o q ev trB
                | some pid =>
                  if pid.isEmpty then bookFinish inp ids.ticketId ids st o q ev trB
                  else
                    let trC := trB ++ [Eff.readDoc "tickets" true]
                    match o.checkTicketErr with
                    | some JsErr.notFound => bookFinish inp pid ids st o q ev trC
                    | some e => natCatch e true st trC
                    | none =>
                      if pid ∈ st.tickets then
                        match o.rollbackErr with
                        | some e => natCatch e true st (trC ++ [Eff.txnRollback])
                        | none =>
                          { success := false, code := "DUPLICATE_TICKET_ID",
                            existingTicketId := some pid,
                            txnCreated := true, rollbackAttempted := true,
                            store := st, trace := trC ++ [Eff.txnRollback] }
                      else bookFinish inp pid ids st o q ev trC

/-! ## Booking with fallback: `src/unnamed/part_001`, third function

This variant stores event categories as one JSON string holding an
array of objects with `name` and `ticketsLeft` fields; the model
keeps the parse result (`none` models a malformed string on which
`JSON.parse` throws). -/

/-- A JSON field value that may be a string or a number. -/
inductive JsVal
  | str (s : String)
  | num (n : JNum)
deriving DecidableEq, Repr

/-- JS `parseInt` applied to a JSON value (a number is converted to
its string and parsed back, which is the identity on our integers
and on NaN). -/
def parseIntJsVal : JsVal → JNum
  | .str s => jsParseInt s
  | .num n => n

/-- One entry of the parsed `categories` array of this variant. -/
structure Cat where
  name : String
  ticketsLeft : JsVal
deriving DecidableEq, Repr

/-- An event document of this variant. -/
structure EventDoc2 where
  id : String
  ticketsLeft : String
  cats : Option (List Cat)
deriving DecidableEq, Repr

/-- Document store backing the part_001 booking functions. -/
structure Store2 where
  tickets : List String
  transactions : List TxDoc
  orders : List String
  events : List EventDoc2
deriving DecidableEq, Repr

/-- Transactions matching a payment id in this variant's store. -/
def txMatches2 (st : Store2) (p : String) : List TxDoc :=
  st.transactions.filter (fun t => t.paymentId == p)

/-- Response code of the part_001 catch handlers,
`err.code || err.type || BOOKING_ERROR` (Appwrite errors carry their
HTTP status in `err.code`; other throwables carry neither field). -/
def errCodeJs : JsErr → String
  | .notFound => "404"
  | .conflict => "409"
  | .permission => "401"
  | .duplicate => "BOOKING_ERROR"
  | .generic => "BOOKING_ERROR"

/-- Category rewrite of the part_001 booking functions (lines 671 to
676 and 845 to 850, identical text): entries whose `name` equals the
requested ticket type get `ticketsLeft` replaced by
`Math.max(0, (parseInt(cat.ticketsLeft) || 0) - quantityInt)`. -/
def updatedCategoriesObj (cats : List Cat) (nm : Option String) (q : JNum) : List Cat :=
  cats.map fun cat =>
    if (match nm with | some n => cat.name == n | none => false) then
      { cat with ticketsLeft :=
          JsVal.num (jsMax0 (jsSub (some ((parseIntJsVal cat.ticketsLeft).getD 0)) q)) }
    else cat

/-- `Math.max(0, currentTicketsLeft - quantityInt).toString()` of the
part_001 booking functions (lines 669 and 843); the quantity may be
NaN there since neither variant re-validates it. -/
def newTicketsLeftFb (cur : Int) (q : JNum) : String :=
  jsNumToString (jsMax0 (jsSub (some cur) q))

/-- Result of one `bookWithTransactions` run. -/
structure BtResult where
  success : Bool
  code : String
  ticketId : Option String := none
  existingTicketId : Option String := none
  txnCreated : Bool := false
  rollbackAttempted : Bool := false
  store : Store2
  trace : List Eff := []
deriving DecidableEq, Repr

/-- Catch handler of `bookWithTransactions` (lines 705 to 723). -/
def btCatch (e : JsErr) (txn : Bool) (st : Store2) (tr : List Eff) : BtResult :=
  { success := false, code := errCodeJs e, txnCreated := txn,
    rollbackAttempted := txn, store := st,
    trace := if txn then tr ++ [Eff.txnRollback] else tr }

/-- Store state once the staged operations of a successful
`bookWithTransactions` run are committed. -/
def applyBookingV2 (st : Store2) (eid : String) (ev : EventDoc2) (cats : List Cat)
    (tid txid oid payId : String) (nm : Option String) (q : JNum) : Store2 :=
  { tickets := st.tickets ++ [tid],
    transactions := st.transactions ++ [⟨txid, payId, tid⟩],
    orders := st.orders ++ [oid],
    events := st.events.map fun e =>
      if e.id == eid then
        { e with ticketsLeft := newTicketsLeftFb (jsParseIntOr0 ev.ticketsLeft) q,
                 cats := some (updatedCategoriesObj cats nm q) }
      else e }

/-- One run of `bookWithTransactions` (part_001 lines 543 to 724):
native transactions, but the duplicate-payment `listDocuments` is
issued without the transaction id (lines 603 to 607), unlike the
event read; the insufficient-tickets rejection explicitly rolls the
context back before responding. -/
def bookWithTransactions (inp : BookInput) (ids : FreshIds) (st : Store2)
    (o : ErrOracle) : BtResult :=
  let qJ := jsParseInt (inp.quantity.getD "")
  if falsy inp.userId || falsy inp.eventId || falsy inp.paymentId then
    { success := false, code := "VALIDATION_ERROR", store := st }
  else if jsLt qJ (some 1) || jsLt (some 10) qJ then
    { success := false, code := "INVALID_QUANTITY", store := st }
  else match o.createTxnErr with
  | some e => btCatch e false st [Eff.txnBegin]
  | none =>
    let trA := [Eff.txnBegin, Eff.readDoc "events" true]
    match o.getEventErr with
    | some e => btCatch e true st trA
    | none =>
      match st.events.find? (fun ev => ev.id == inp.eventId.getD "") with
      | none => btCatch JsErr.notFound true st trA
      | some ev =>
        let current := jsParseIntOr0 ev.ticketsLeft
        if jsLt (some current) qJ then
          match o.rollbackErr with
          | some e => btCatch e true st (trA ++ [Eff.txnRollback])
          | none =>
            { success := false, code := "INSUFFICIENT_TICKETS",
              txnCreated := true, rollbackAttempted := true, store := st,
              trace := trA ++ [Eff.txnRollback] }
        else
          let trB := trA ++ [Eff.listDocs "transactions" false]
          match o.listTxErr with
          | some e => btCatch e true st trB
          | none =>
            match txMatches2 st (inp.paymentId.getD "") with
            | d :: _ =>
              match o.rollbackErr with
              | some e => btCatch e true st (trB ++ [Eff.txnRollback])
              | none =>
                { success := false, code := "DUPLICATE_PAYMENT",
                  existingTicketId := some d.ticketId,
                  txnCreated := true, rollbackAttempted := true, store := st,
                  trace := trB ++ [Eff.txnRollback] }
            | [] =>
              let trC := trB ++ [Eff.stageCreate "tickets" ids.ticketId]
              match o.createTicketErr with
              | some e => btCatch e true st trC
              | none =>
                let trD := trC ++ [Eff.stageCreate "transactions" ids.txDocId]
                match o.createTxDocErr with
                | some e => btCatch e true st trD
                | none =>
                  let trE := trD ++ [Eff.stageCreate "orders" ids.orderId]
                  match o.createOrderErr with
                  | some e => btCatch e true st trE
                  | none =>
                    match ev.cats with
                    | none => btCatch JsErr.generic true st trE
                    | some cats =>
                      let trF := trE ++ [Eff.stageUpdate "events" (inp.eventId.getD "")]
                      match o.updateEventErr with
                      | some e => btCatch e true st trF
                      | none =>
                        let trG := trF ++ [Eff.txnCommit]
                        match o.commitErr with
                        | some e => btCatch e true st trG
                        | none =>
                          { success := true, code := "OK",
                            ticketId := some ids.ticketId, txnCreated := true,
                            store := applyBookingV2 st (inp.eventId.getD "") ev cats
                              ids.ticketId ids.txDocId ids.orderId
                              (inp.paymentId.getD "") inp.ticketTypeName qJ,
                            trace := trG }

/-! ## Fallback booking: `bookWithOptimisticLocking`
(part_001 lines 729 to 894) -/

/-- Oracle for one fallback run: how many initial attempts of the
event-read retry loop fail, which later backend calls throw, and
which compensating deletes succeed. -/
structure FbOracle where
  getEventErrs : Nat := 0
  listTxErr : Option JsErr := none
  createTicketErr : Option JsErr := none
  createTxDocErr : Option JsErr := none
  createOrderErr : Option JsErr := none
  updateEventErr : Option JsErr := none
  deleteTicketOk : Bool := true
  deleteTxDocOk : Bool := true
  deleteOrderOk : Bool := true
deriving DecidableEq, Repr

/-- Result of one fallback run. `createdDocs` mirrors the
`createdDocuments` array of the source; `deletesAttempted` lists the
compensating deletes issued by the catch handler, in issue order;
`rollbackStatus` is the response field of that name (the fallback
never emits one). -/
structure FbResult where
  success : Bool
  code : String
  existingTicketId : Option String := none
  rollbackStatus : Option (List (String × Bool)) := none
  createdDocs : List (String × String) := []
  deletesAttempted : List (String × String) := []
  eventUpdateApplied : Bool := false
  store : Store2
  trace : List Eff := []
deriving DecidableEq, Repr

/-- The retry loop of the fallback (lines 756 to 778): up to 3
attempts with backoff; transient failures are counted by the oracle,
and a missing event document makes every attempt throw not-found. -/
def fbGetEvent (st : Store2) (eid : String) (errs : Nat) : Except JsErr EventDoc2 :=
  if 3 ≤ errs then Except.error JsErr.generic
  else match st.events.find? (fun ev => ev.id == eid) with
    | some ev => Except.ok ev
    | none => Except.error JsErr.notFound

/-- Whether the compensating delete for a collection succeeds. -/
def fbDeleteOk (o : FbOracle) (coll : String) : Bool :=
  if coll = "tickets" then o.deleteTicketOk
  else if coll = "transactions" then o.deleteTxDocOk
  else if coll = "orders" then o.deleteOrderOk
  else true

/-- Effect of `deleteDocument` on the store. -/
def store2Delete (st : Store2) (coll id : String) : Store2 :=
  if coll = "tickets" then { st with tickets := st.tickets.filter (· != id) }
  else if coll = "transactions" then
    { st with transactions := st.transactions.filter (fun t => t.id != id) }
  else if coll = "orders" then { st with orders := st.orders.filter (· != id) }
  else st

/-- The compensation walk of the fallback catch handler (lines 879 to
886): attempt a delete for each entry, continuing past failures. -/
def fbRollbackWalk (o : FbOracle) : List (String × String) → Store2 → Store2
  | [], st => st
  | (c, i) :: rest, st =>
    fbRollbackWalk o rest (if fbDeleteOk o c then store2Delete st c i else st)

/-- Catch handler of the fallback (lines 875 to 893): walk
`createdDocuments` in reverse, attempt one delete per entry, then
respond without any `rollbackStatus`. No failure can occur after the
event update has been applied, so that update is never compensated. -/
def fbCatch (o : FbOracle) (e : JsErr) (created : List (String × String))
    (st : Store2) (tr : List Eff) : FbResult :=
  { success := false, code := errCodeJs e, createdDocs := created,
    deletesAttempted := created.reverse,
    store := fbRollbackWalk o created.reverse st,
    trace := tr ++ created.reverse.map fun p => Eff.directDelete p.1 p.2 }

/-- `updateDocument` on an event of this variant. -/
def store2UpdateEvent (st : Store2) (eid left : String) (cats : List Cat) : Store2 :=
  { st with events := st.events.map fun e =>
      if e.id == eid then { e with ticketsLeft := left, cats := some cats } else e }

/-- One run of `bookWithOptimisticLocking` (part_001 lines 729 to
894): direct writes in staging order, a single duplicate-payment
check before the writes, and reverse-order best-effort compensation
on any thrown error. Validation requires only userId, eventId and
paymentId, and the quantity is never range-checked here. -/
def bookWithOptimisticLocking (inp : BookInput) (ids : FreshIds) (st : Store2)
    (o : FbOracle) : FbResult :=
  let qJ := jsParseInt (inp.quantity.getD "")
  if falsy inp.userId || falsy inp.eventId || falsy inp.paymentId then
    { success := false, code := "VALIDATION_ERROR", store := st }
  else
    let tr0 := [Eff.readDoc "events" false]
    match fbGetEvent st (inp.eventId.getD "") o.getEventErrs with
    | .error e => fbCatch o e [] st tr0
    | .ok ev =>
      let current := jsParseIntOr0 ev.ticketsLeft
      if jsLt (some current) qJ then
        { success := false, code := "INSUFFICIENT_TICKETS", store := st, trace := tr0 }
      else
        let tr1 := tr0 ++ [Eff.listDocs "transactions" false]
        match o.listTxErr with
        | some e => fbCatch o e [] st tr1
        | none =>
          match txMatches2 st (inp.paymentId.getD "") with
          | _ :: _ =>
            { success := false, code := "DUPLICATE_PAYMENT", store := st, trace := tr1 }
          | [] =>
            match o.createTicketErr with
            | some e => fbCatch o e [] st tr1
            | none =>
              if ids.ticketId ∈ st.tickets then fbCatch o JsErr.conflict [] st tr1
              else
                let st1 : Store2 := { st with tickets := st.tickets ++ [ids.ticketId] }
                let cd1 := [("tickets", ids.ticketId)]
                let tr2 := tr1 ++ [Eff.directCreate "tickets" ids.ticketId]
                match o.createTxDocErr with
                | some e => fbCatch o e cd1 st1 tr2
                | none =>
                  if ids.txDocId ∈ st1.transactions.map TxDoc.id then
                    fbCatch o JsErr.conflict cd1 st1 tr2
                  else
                    let st2 : Store2 := { st1 with transactions :=
                      st1.transactions ++ [⟨ids.txDocId, inp.paymentId.getD "", ids.ticketId⟩] }
                    let cd2 := cd1 ++ [("transactions", ids.txDocId)]
                    let tr3 := tr2 ++ [Eff.directCreate "transactions" ids.txDocId]
                    match o.createOrderErr with
                    | some e => fbCatch o e cd2 st2 tr3
                    | none =>
                      if ids.orderId ∈ st2.orders then fbCatch o JsErr.conflict cd2 st2 tr3
                      else
                        let st3 : Store2 := { st2 with orders := st2.orders ++ [ids.orderId] }
                        let cd3 := cd2 ++ [("orders", ids.orderId)]
                        let tr4 := tr3 ++ [Eff.directCreate "orders" ids.orderId]
                        match ev.cats with
                        | none => fbCatch o JsErr.generic cd3 st3 tr4
                        | some cats =>
                          match o.updateEventErr with
                          | some e => fbCatch o e cd3 st3 tr4
                          | none =>
                            { success := true, code := "OK", createdDocs := cd3,
                              eventUpdateApplied := true,
                              store := store2UpdateEvent st3 (inp.eventId.getD "")
                                (newTicketsLeftFb current qJ)
                                (updatedCategoriesObj cats inp.ticketTypeName qJ),
                              trace := tr4 ++ [Eff.directUpdate "events" (inp.eventId.getD "")] }

/-! ## Atomic signup: `src/unnamed/part_001`, first function -/

/-- Parsed signup request body. -/
structure SignupInput where
  userId : Option String := none
  email : Option String := none
  name : Option String := none
  profilePicBase64 : Option String := none
  qrCodeBase64 : Option String := none
  phone : Option String := none
  countryCode : Option String := none
deriving DecidableEq, Repr

/-- A user document (fields the embedded code reads: id, email). -/
structure UserDoc where
  id : String
  email : String
deriving DecidableEq, Repr

/-- Backing stores for signup: the users collection and the two
storage buckets. -/
structure Store3 where
  users : List UserDoc
  picFiles : List String
  qrFiles : List String
deriving DecidableEq, Repr

/-- Oracle for one signup run. -/
structure SgOracle where
  uploadPicErr : Option JsErr := none
  uploadQrErr : Option JsErr := none
  createTxnErr : Option JsErr := none
  checkUserErr : Option JsErr := none
  listEmailErr : Option JsErr := none
  createUserErr : Option JsErr := none
  commitErr : Option JsErr := none
  rollbackErr : Option JsErr := none
  deletePicOk : Bool := true
  deleteQrOk : Bool := true
deriving DecidableEq, Repr

/-- Result of one signup run. `rollbackStatus` and `cleanedUp` are
the response fields of those names; `viaCatch` records that the
response was produced by the catch handler. -/
structure SignupResult where
  success : Bool
  code : String
  rollbackStatus : Option (List (String × Bool)) := none
  cleanedUp : List String := []
  viaCatch : Bool := false
  uploadedPic : Option String := none
  uploadedQr : Option String := none
  txnCreated : Bool := false
  rollbackAttempted : Bool := false
  store : Store3
  trace : List Eff := []
deriving DecidableEq, Repr

/-- The regular expression the signup applies to the email: one or
more characters that are neither whitespace nor an at-sign, an
at-sign, the same, a dot, the same again. -/
def noWsAt (cs : List Char) : Bool :=
  cs.all fun c => !(c == '@' || c.isWhitespace)

/-- Whether the email regex of signup line 95 matches. -/
def emailValid (s : String) : Bool :=
  match splitChar '@' s.toList [] with
  | [lp, dom] =>
    !lp.isEmpty && noWsAt lp && noWsAt dom && ((dom.drop 1).dropLast.contains '.')
  | _ => false

/-- Error code chosen by the signup catch handler (lines 380 to 393). -/
def sgCatchCode : JsErr → String
  | .conflict => "CONFLICT_ERROR"
  | .notFound => "NOT_FOUND_ERROR"
  | .permission => "PERMISSION_ERROR"
  | .duplicate => "DUPLICATE_ERROR"
  | .generic => "SIGNUP_ERROR"

/-- `cleanupUploadedFiles` (lines 409 to 446): delete each uploaded
file, reporting per file whether the delete succeeded; a failed
delete is caught and leaves the file in place. -/
def cleanupUploadedFiles (o : SgOracle) (pic qr : Option String) (st : Store3) :
    Store3 × Bool × Bool :=
  let step1 : Store3 × Bool :=
    match pic with
    | none => (st, false)
    | some fid =>
      if o.deletePicOk ∧ fid ∈ st.picFiles then
        ({ st with picFiles := st.picFiles.filter (· != fid) }, true)
      else (st, false)
  let step2 : Store3 × Bool :=
    match qr with
    | none => (step1.1, false)
    | some fid =>
      if o.deleteQrOk ∧ fid ∈ step1.1.qrFiles then
        ({ step1.1 with qrFiles := step1.1.qrFiles.filter (· != fid) }, true)
      else (step1.1, false)
  (step2.1, step1.2, step2.2)

/-- The signup catch handler (lines 338 to 403): roll back the
transaction if one was created (its own failure swallowed), delete
the uploaded files, classify the error, and respond with a
`rollbackStatus` mapping the three resources. -/
def sgCatch (o : SgOracle) (e : JsErr) (txn : Bool) (pic qr : Option String)
    (st : Store3) (tr : List Eff) : SignupResult :=
  let txnOk := txn ∧ o.rollbackErr = none
  let cleaned := cleanupUploadedFiles o pic qr st
  let rs := [("transaction", decide txnOk), ("profilePicture", cleaned.2.1),
             ("qrCode", cleaned.2.2)]
  { success := false, code := sgCatchCode e,
    rollbackStatus := some rs,
    cleanedUp := (rs.filter (fun p => p.2)).map fun p => p.1,
    viaCatch := true, uploadedPic := pic, uploadedQr := qr,
    txnCreated := txn, rollbackAttempted := txn,
    store := cleaned.1,
    trace := (if txn then tr ++ [Eff.txnRollback] else tr) ++
      (pic.toList.map fun f => Eff.deleteFile "profile" f) ++
      (qr.toList.map fun f => Eff.deleteFile "qr" f) }

/-- Steps 6b to 8 of the signup (lines 244 to 336): duplicate-email
check inside the context, staged user create, commit. -/
def sgEmailPhase (inp : SignupInput) (st2 : Store3) (o : SgOracle)
    (uid picId qrId : String) (trR : List Eff) : SignupResult :=
  let trS := trR ++ [Eff.listDocs "users" true]
  match o.listEmailErr with
  | some e => sgCatch o e true (some picId) (some qrId) st2 trS
  | none =>
    match st2.users.filter (fun u => u.email == inp.email.getD "") with
    | _ :: _ =>
      match o.rollbackErr with
      | some e => sgCatch o e true (some picId) (some qrId) st2 (trS ++ [Eff.txnRollback])
      | none =>
        let cleaned := cleanupUploadedFiles o (some picId) (some qrId) st2
        { success := false, code := "DUPLICATE_EMAIL",
          cleanedUp := ["profilePicture", "qrCode", "transaction"],
          uploadedPic := some picId, uploadedQr := some qrId,
          txnCreated := true, rollbackAttempted := true,
          store := cleaned.1,
          trace := trS ++ [Eff.txnRollback, Eff.deleteFile "profile" picId,
            Eff.deleteFile "qr" qrId] }
    | [] =>
      let trT := trS ++ [Eff.stageCreate "users" uid]
      match o.createUserErr with
      | some e => sgCatch o e true (some picId) (some qrId) st2 trT
      | none =>
        let trU := trT ++ [Eff.txnCommit]
        match o.commitErr with
        | some e => sgCatch o e true (some picId) (some qrId) st2 trU
        | none =>
          { success := true, code := "OK",
            uploadedPic := some picId, uploadedQr := some qrId,
            txnCreated := true,
            store := { st2 with users := st2.users ++ [⟨uid, inp.email.getD ""⟩] },
            trace := trU }

/-- One run of the fully atomic signup (part_001 lines 43 to 447):
validation, two storage uploads (each compensated explicitly on
later failure), a transaction context, duplicate user and email
checks inside the context, a staged user create, and commit. -/
def atomicSignup (inp : SignupInput) (st : Store3) (o : SgOracle) : SignupResult :=
  if falsy inp.userId || falsy inp.email || falsy inp.name ||
      falsy inp.profilePicBase64 || falsy inp.qrCodeBase64 || falsy inp.phone then
    { success := false, code := "VALIDATION_ERROR", store := st }
  else if !emailValid (inp.email.getD "") then
    { success := false, code := "INVALID_EMAIL", store := st }
  else if (inp.phone.getD "").toList.length < 10 then
    { success := false, code := "INVALID_PHONE", store := st }
  else
    let uid := inp.userId.getD ""
    let picId := uid ++ "_user_pic.png"
    let qrId := uid ++ "_user_qr.png"
    let trP := [Eff.upload "profile" picId]
    if o.uploadPicErr.isSome ∨ picId ∈ st.picFiles then
      { success := false, code := "PROFILE_PIC_UPLOAD_FAILED", store := st, trace := trP }
    else
      let st1 : Store3 := { st with picFiles := st.picFiles ++ [picId] }
      let trQ := trP ++ [Eff.upload "qr" qrId]
      if o.uploadQrErr.isSome ∨ qrId ∈ st1.qrFiles then
        let cleaned := cleanupUploadedFiles o (some picId) none st1
        { success := false, code := "QR_CODE_UPLOAD_FAILED",
          cleanedUp := ["profilePicture"], uploadedPic := some picId,
          store := cleaned.1,
          trace := trQ ++ [Eff.deleteFile "profile" picId] }
      else
        let st2 : Store3 := { st1 with qrFiles := st1.qrFiles ++ [qrId] }
        match o.createTxnErr with
        | some e => sgCatch o e false (some picId) (some qrId) st2 (trQ ++ [Eff.txnBegin])
        | none =>
          let trR := trQ ++ [Eff.txnBegin, Eff.readDoc "users" true]
          match o.checkUserErr with
          | some JsErr.notFound => sgEmailPhase inp st2 o uid picId qrId trR
          | some e => sgCatch o e true (some picId) (some qrId) st2 trR
          | none =>
            if uid ∈ st2.users.map UserDoc.id then
              match o.rollbackErr with
              | some e => sgCatch o e true (some picId) (some qrId) st2 (trR ++ [Eff.txnRollback])
              | none =>
                let cleaned := cleanupUploadedFiles o (some picId) (some qrId) st2
                { success := false, code := "DUPLICATE_USER",
                  cleanedUp := ["profilePicture", "qrCode", "transaction"],
                  uploadedPic := some picId, uploadedQr := some qrId,
                  txnCreated := true, rollbackAttempted := true,
                  store := cleaned.1,
                  trace := trR ++ [Eff.txnRollback, Eff.deleteFile "profile" picId,
                    Eff.deleteFile "qr" qrId] }
            else sgEmailPhase inp st2 o uid picId qrId trR

/-! ## Trace observations -/

/-- Number of duplicate-payment existence checks
(`listDocuments` on the transactions collection) in a trace. -/
def countPayChecks : List Eff → Nat
  | [] => 0
  | e :: r =>
    (match e with
     | Eff.listDocs coll _ => if coll = "transactions" then 1 else 0
     | _ => 0) + countPayChecks r

/-- Whether every document read or list in a trace was issued with
the transaction context. -/
def allGuardedReadsInCtx (tr : List Eff) : Bool :=
  tr.all fun e =>
    match e with
    | Eff.readDoc _ b => b
    | Eff.listDocs _ b => b
    | _ => true

/-- A signup response produced by the catch handler carries a
rollbackStatus mapping the three touched resources, and its two file
entries are true exactly when the file is gone from storage. -/
def catchStatusOk (r : SignupResult) : Prop :=
  r.viaCatch = true →
    ∃ b1 b2 b3 : Bool,
      r.rollbackStatus =
        some [("transaction", b1), ("profilePicture", b2), ("qrCode", b3)] ∧
      ∃ f g, r.uploadedPic = some f ∧ r.uploadedQr = some g ∧
        (b2 = true ↔ f ∉ r.store.picFiles) ∧
        (b3 = true ↔ g ∉ r.store.qrFiles)

/-- A signup response not produced by the catch handler carries no
rollbackStatus. -/
def nonCatchNoStatus (r : SignupResult) : Prop :=
  r.viaCatch = false → r.rollbackStatus = none

/-- All-or-nothing for a fallback booking run started on `st0` with
fresh ids `ids`: a failing run leaves the store exactly as it was; a
successful run has the ticket, transaction and order documents
present and the event update applied. -/
def fbAllOrNothing (inp : BookInput) (ids : FreshIds) (st0 : Store2)
    (r : FbResult) : Prop :=
  (r.success = false → r.store = st0) ∧
  (r.success = true →
    ids.ticketId ∈ r.store.tickets ∧
    (⟨ids.txDocId, inp.paymentId.getD "", ids.ticketId⟩ : TxDoc) ∈ r.store.transactions ∧
    ids.orderId ∈ r.store.orders ∧
    r.eventUpdateApplied = true)

/-- All-or-nothing for a native booking run started on `st0`: a
failing run leaves the store untouched; a successful run has the
ticket, transaction and order documents present and the staged event
inventory update committed (the events list is the initial one with
the booked event's ticketsLeft and categories rewritten). -/
def natAllOrNothing (inp : BookInput) (ids : FreshIds) (st0 : Store)
    (r : BookResult) : Prop :=
  (r.success = false → r.store = st0) ∧
  (r.success = true →
    ∃ tid, r.ticketId = some tid ∧ tid ∈ r.store.tickets ∧
      (⟨ids.txDocId, inp.paymentId.getD "", tid⟩ : TxDoc) ∈ r.store.transactions ∧
      ids.orderId ∈ r.store.orders ∧
      ∃ q ev,
        jsParseInt (inp.quantity.getD "") = some q ∧
        st0.events.find? (fun e => e.id == inp.eventId.getD "") = some ev ∧
        r.store.events =
          (applyBookingNative st0 ev tid ids.txDocId ids.orderId
            (inp.paymentId.getD "") (inp.ticketTypeName.getD "") q).events)

/-- All-or-nothing for a signup run started on `st0` for user `uid`:
failure restores users and both buckets; success has the user
document and both uploaded files present. -/
def sgAllOrNothing (uid : String) (st0 : Store3) (r : SignupResult) : Prop :=
  (r.success = false → r.store = st0) ∧
  (r.success = true →
    ∃ f g, r.uploadedPic = some f ∧ r.uploadedQr = some g ∧
      f ∈ r.store.picFiles ∧ g ∈ r.store.qrFiles ∧
      uid ∈ r.store.users.map UserDoc.id)

/-! ## Concrete instances used by examples, witnesses and
counterexamples -/

/-- A well-formed happy-path booking input. -/
def inpOk : BookInput :=
  { userId := some "u1", eventId := some "e1", paymentId := some "P1",
    quantity := some "2", ticketTypeName := some "VIP" }

/-- A store holding one event with a 4-part VIP category. -/
def stOk : Store :=
  { tickets := [], transactions := [], orders := [],
    events := [⟨"e1", "10", ["VIP:500:6:phase1", "GA:100:3:phase1"]⟩] }

/-- Fresh document ids for a first run. -/
def idsA : FreshIds := ⟨"t1", "x1", "o1"⟩

/-- Fresh document ids for a second run. -/
def idsB : FreshIds := ⟨"t2", "x2", "o2"⟩

/-- A store for the part_001 variant with one event. -/
def stFb : Store2 :=
  { tickets := [], transactions := [], orders := [],
    events := [⟨"e1", "10", some [⟨"VIP", JsVal.num (some 5)⟩]⟩] }

/-- A store whose event has only one ticket left. -/
def stLow : Store :=
  { tickets := [], transactions := [], orders := [],
    events := [⟨"e1", "1", ["VIP:500:6:phase1"]⟩] }

/-- The part_001 store after a successful first booking of payment
P1: resubmitting the same payment against it must be rejected. -/
def stDup : Store2 :=
  { tickets := ["t1"], transactions := [⟨"x1", "P1", "t1"⟩], orders := ["o1"],
    events := [⟨"e1", "8", some [⟨"VIP", JsVal.num (some 3)⟩]⟩] }

/-- A store whose event carries a 3-part category entry
(name, price, quantity - no phase part). -/
def stC9 : Store :=
  { tickets := [], transactions := [], orders := [],
    events := [⟨"e1", "10", ["VIP:500:10"]⟩] }

/-- A well-formed signup input. -/
def sgInpOk : SignupInput :=
  { userId := some "u1", email := some "a@b.c", name := some "N",
    profilePicBase64 := some "AA", qrCodeBase64 := some "BB",
    phone := some "0123456789" }

/-- Empty signup stores. -/
def st3Empty : Store3 := ⟨[], [], []⟩

/-! ## Sanity checks on the models -/

example : (bookTicketAtomicRun inpOk idsA stOk {}).success = true := by decide

example : (bookTicketAtomicRun inpOk idsA stOk {}).store.tickets = ["t1"] := by decide

example :
    (bookTicketAtomicRun inpOk idsA stOk {}).store.events =
      [⟨"e1", "8", ["VIP:500:4:phase1", "GA:100:3:phase1"]⟩] := by decide

example :
    (bookTicketAtomicRun { inpOk with quantity := some "20" } idsA stOk {}).code =
      "INVALID_QUANTITY" := by decide

example : (bookWithOptimisticLocking inpOk idsA stFb {}).success = true := by decide

example :
    (bookWithOptimisticLocking inpOk idsA stFb {}).store.events =
      [⟨"e1", "8", some [⟨"VIP", JsVal.num (some 3)⟩]⟩] := by decide

example : (bookWithTransactions inpOk idsA stFb {}).success = true := by decide

example :
    (bookWithOptimisticLocking inpOk idsA stFb
      { createTxDocErr := some JsErr.generic }).store = stFb := by decide

example : (atomicSignup sgInpOk st3Empty {}).success = true := by decide

example :
    (atomicSignup sgInpOk st3Empty {}).store =
      ⟨[⟨"u1", "a@b.c"⟩], ["u1_user_pic.png"], ["u1_user_qr.png"]⟩ := by decide

example :
    (atomicSignup sgInpOk st3Empty { commitErr := some JsErr.generic }).store =
      st3Empty := by decide

example :
    (atomicSignup sgInpOk st3Empty { commitErr := some JsErr.generic }).rollbackStatus =
      some [("transaction", true), ("profilePicture", true), ("qrCode", true)] := by decide

/-! ## Helper lemmas -/

/-- No catch-handler code of `bookTicketAtomic` is the
insufficient-tickets code. -/
@[simp] theorem catchCode_ne_insufficient (e : JsErr) :
    ¬ catchCode e = "INSUFFICIENT_TICKETS" := by
  cases e <;> simp [catchCode]

/-- No catch-handler code of `bookTicketAtomic` is the
ticket-type-unavailable code. -/
@[simp] theorem catchCode_ne_unavailable (e : JsErr) :
    ¬ catchCode e = "TICKET_TYPE_UNAVAILABLE" := by
  cases e <;> simp [catchCode]

/-- No part_001 catch-handler code is the duplicate-payment code. -/
@[simp] theorem errCodeJs_ne_duplicate (e : JsErr) :
    ¬ errCodeJs e = "DUPLICATE_PAYMENT" := by
  cases e <;> simp [errCodeJs]

/-- Removing a freshly appended string restores the list. -/
theorem filter_bne_append (l : List String) (a : String) (h : a ∉ l) :
    (l ++ [a]).filter (fun x => x != a) = l := by
  induction l with
  | nil => simp
  | cons b t ih =>
    have hb : b ≠ a := fun e => h (e ▸ List.mem_cons_self b t)
    have ht : a ∉ t := fun m => h (List.mem_cons_of_mem b m)
    simp only [List.cons_append, List.filter_cons]
    simp [bne_iff_ne, hb, ih ht]

/-- Removing a freshly appended transaction document by id restores
the list. -/
theorem filter_txid_append (l : List TxDoc) (t : TxDoc)
    (h : t.id ∉ l.map TxDoc.id) :
    (l ++ [t]).filter (fun u => u.id != t.id) = l := by
  induction l with
  | nil => simp
  | cons b r ih =>
    simp only [List.map_cons, List.mem_cons, not_or] at h
    have hb : (b.id != t.id) = true := by
      simp only [bne_iff_ne, ne_eq]
      exact fun e => h.1 e.symm
    simp only [List.cons_append, List.filter_cons, hb, if_pos]
    rw [ih h.2]

/-- Everything in a list differs from `a` exactly when `a` is not a
member. -/
theorem forall_ne_iff_not_mem {α : Type} (l : List α) (a : α) :
    (∀ b ∈ l, ¬ b = a) ↔ a ∉ l :=
  ⟨fun h hm => h a hm rfl, fun h _ hb e => h (e ▸ hb)⟩

/-- Every document id in a list differs from `b` exactly when `b` is
not among the mapped ids. -/
theorem forall_txid_ne_iff_not_mem (l : List TxDoc) (b : String) :
    (∀ x ∈ l, ¬ x.id = b) ↔ b ∉ l.map TxDoc.id :=
  ⟨fun h hm => by
      obtain ⟨x, hx, e⟩ := List.mem_map.mp hm
      exact h x hx e,
   fun h x hx e => h (List.mem_map.mpr ⟨x, hx, e⟩)⟩

/-! ## C8: validation failures have zero side effects -/

/-- C8: in each of the four entry points, a request with a missing
required field is rejected with VALIDATION_ERROR before any upload,
transaction-context creation or document write: the result is
exactly the validation response, with an empty effect trace and the
store unchanged. -/
theorem c8_validation_first
    (i1 i2 i3 : BookInput) (sg : SignupInput) (ids1 ids2 ids3 : FreshIds)
    (s1 : Store) (s2 s3 : Store2) (s4 : Store3)
    (o1 o2 : ErrOracle) (o3 : FbOracle) (o4 : SgOracle)
    (h1 : falsy i1.userId = true ∨ falsy i1.eventId = true ∨
      falsy i1.paymentId = true ∨ falsy i1.quantity = true ∨
      falsy i1.ticketTypeName = true)
    (h2 : falsy i2.userId = true ∨ falsy i2.eventId = true ∨ falsy i2.paymentId = true)
    (h3 : falsy i3.userId = true ∨ falsy i3.eventId = true ∨ falsy i3.paymentId = true)
    (h4 : falsy sg.userId = true ∨ falsy sg.email = true ∨ falsy sg.name = true ∨
      falsy sg.profilePicBase64 = true ∨ falsy sg.qrCodeBase64 = true ∨
      falsy sg.phone = true) :
    bookTicketAtomicRun i1 ids1 s1 o1 =
      { success := false, code := "VALIDATION_ERROR", store := s1 } ∧
    bookWithTransactions i2 ids2 s2 o2 =
      { success := false, code := "VALIDATION_ERROR", store := s2 } ∧
    bookWithOptimisticLocking i3 ids3 s3 o3 =
      { success := false, code := "VALIDATION_ERROR", store := s3 } ∧
    atomicSignup sg s4 o4 =
      { success := false, code := "VALIDATION_ERROR", store := s4 } := by
  have e1 : (falsy i1.userId || falsy i1.eventId || falsy i1.paymentId ||
      falsy i1.quantity || falsy i1.ticketTypeName) = true := by
    rcases h1 with h | h | h | h | h <;> simp [h]
  have e2 : (falsy i2.userId || falsy i2.eventId || falsy i2.paymentId) = true := by
    rcases h2 with h | h | h <;> simp [h]
  have e3 : (falsy i3.userId || falsy i3.eventId || falsy i3.paymentId) = true := by
    rcases h3 with h | h | h <;> simp [h]
  have e4 : (falsy sg.userId || falsy sg.email || falsy sg.name ||
      falsy sg.profilePicBase64 || falsy sg.qrCodeBase64 || falsy sg.phone) = true := by
    rcases h4 with h | h | h | h | h | h <;> simp [h]
  refine ⟨?_, ?_, ?_, ?_⟩
  · simp [bookTicketAtomicRun, e1]
  · simp [bookWithTransactions, e2]
  · simp [bookWithOptimisticLocking, e3]
  · simp [atomicSignup, e4]

/-- Witness for C8 at the empty request body. -/
theorem c8_validation_first_w :
    bookTicketAtomicRun {} idsA stOk {} =
      { success := false, code := "VALIDATION_ERROR", store := stOk } ∧
    bookWithTransactions {} idsA stFb {} =
      { success := false, code := "VALIDATION_ERROR", store := stFb } ∧
    bookWithOptimisticLocking {} idsA stFb {} =
      { success := false, code := "VALIDATION_ERROR", store := stFb } ∧
    atomicSignup {} st3Empty {} =
      { success := false, code := "VALIDATION_ERROR", store := st3Empty } :=
  c8_validation_first {} {} {} {} idsA idsA idsA stOk stFb stFb st3Empty {} {} {} {}
    (Or.inl (by decide)) (Or.inl (by decide)) (Or.inl (by decide)) (Or.inl (by decide))

/-! ## C10: inventory decrements are clamped at zero -/

/-- C10: every event-inventory value written by a committed staged
update is clamped at zero. The event-level value is
`max 0 (current - quantity)` in the native function and its NaN-aware
counterpart in the two part_001 variants; every category entry either
passes through unchanged or carries a clamped, non-negative new
quantity. -/
theorem c10_no_negative_inventory :
    (∀ cur q : Int, ∃ k : Int, newTicketsLeftNative cur q = toString k ∧ 0 ≤ k) ∧
    (∀ (cur : Int) (q : JNum), newTicketsLeftFb cur q = "NaN" ∨
      ∃ k : Int, newTicketsLeftFb cur q = toString k ∧ 0 ≤ k) ∧
    (∀ (cats : List String) (nm : String) (q : Int),
      ∀ c ∈ updateCategories cats nm q, c ∈ cats ∨
        ∃ a b d : String, ∃ k : Int,
          c = a ++ ":" ++ b ++ ":" ++ toString k ++ ":" ++ d ∧ 0 ≤ k) ∧
    (∀ (cats : List Cat) (nm : Option String) (q : JNum),
      ∀ c ∈ updatedCategoriesObj cats nm q, c ∈ cats ∨
        ∃ j : JNum, c.ticketsLeft = JsVal.num j ∧
          (j = none ∨ ∃ k : Int, j = some k ∧ 0 ≤ k)) := by
  refine ⟨?_, ?_, ?_, ?_⟩
  · intro cur q
    exact ⟨max 0 (cur - q), rfl, le_max_left 0 _⟩
  · intro cur q
    cases q with
    | none => exact Or.inl rfl
    | some b => exact Or.inr ⟨max 0 (cur - b), rfl, le_max_left 0 _⟩
  · intro cats nm q c hc
    simp only [updateCategories, List.mem_map] at hc
    obtain ⟨x, hx, rfl⟩ := hc
    split
    · right
      exact ⟨(splitTrim x).getD 0 "", (splitTrim x).getD 1 "", (splitTrim x).getD 3 "",
        max 0 (jsParseIntOr0 ((splitTrim x).getD 2 "") - q), rfl, le_max_left 0 _⟩
    · left
      exact hx
  · intro cats nm q c hc
    simp only [updatedCategoriesObj, List.mem_map] at hc
    obtain ⟨x, hx, rfl⟩ := hc
    split
    · right
      refine ⟨jsMax0 (jsSub (some ((parseIntJsVal x.ticketsLeft).getD 0)) q), rfl, ?_⟩
      cases q with
      | none => exact Or.inl rfl
      | some b => exact Or.inr ⟨max 0 _, rfl, le_max_left 0 _⟩
    · left
      exact hx

/-- Witness for C10 at concrete inventory values. -/
theorem c10_no_negative_inventory_w :
    (∃ k : Int, newTicketsLeftNative 10 3 = toString k ∧ 0 ≤ k) ∧
    ("VIP:1:2:p" ∈ (["VIP:1:5:p"] : List String) ∨
      ∃ a b d : String, ∃ k : Int,
        "VIP:1:2:p" = a ++ ":" ++ b ++ ":" ++ toString k ++ ":" ++ d ∧ 0 ≤ k) :=
  ⟨c10_no_negative_inventory.1 10 3,
   c10_no_negative_inventory.2.2.1 ["VIP:1:5:p"] "VIP" 3 "VIP:1:2:p" (by decide)⟩

/-! ## C9: 3-part category entries pass the check but are never
decremented -/

/-- C9: a category entry with exactly 3 colon-separated parts whose
name matches and whose quantity suffices passes the availability scan
(which accepts 3 or more parts), while the staged category rewrite
(which requires 4 or more parts) leaves it unchanged; a concrete
booking against such an event commits, decrementing the event-level
count but not the category entry. -/
theorem c9_three_part_category (nm price qs : String) (q : Int)
    (h3 : splitTrim (nm ++ ":" ++ price ++ ":" ++ qs) = [nm, price, qs])
    (hq : q ≤ jsParseIntOr0 qs) :
    checkTicketType [nm ++ ":" ++ price ++ ":" ++ qs] nm q = (true, jsParseIntOr0 qs) ∧
    updateCategories [nm ++ ":" ++ price ++ ":" ++ qs] nm q =
      [nm ++ ":" ++ price ++ ":" ++ qs] ∧
    (bookTicketAtomicRun inpOk idsA stC9 {}).success = true ∧
    (bookTicketAtomicRun inpOk idsA stC9 {}).store.events =
      [⟨"e1", "8", ["VIP:500:10"]⟩] := by
  refine ⟨?_, ?_, by decide, by decide⟩
  · simp [checkTicketType, h3, hq]
  · simp [updateCategories, h3]

/-- Witness for C9 at the VIP category with 10 units and quantity 2. -/
theorem c9_three_part_category_w :
    checkTicketType ["VIP" ++ ":" ++ "500" ++ ":" ++ "10"] "VIP" 2 =
      (true, jsParseIntOr0 "10") ∧
    updateCategories ["VIP" ++ ":" ++ "500" ++ ":" ++ "10"] "VIP" 2 =
      ["VIP" ++ ":" ++ "500" ++ ":" ++ "10"] ∧
    (bookTicketAtomicRun inpOk idsA stC9 {}).success = true ∧
    (bookTicketAtomicRun inpOk idsA stC9 {}).store.events =
      [⟨"e1", "8", ["VIP:500:10"]⟩] :=
  c9_three_part_category "VIP" "500" "10" 2 (by decide) (by decide)

/-! ## C2: compensation completeness in fallback mode -/

/-- C2: whenever the fallback booking fails, the compensating deletes
attempted are exactly the applied document creates, one each, in
strict reverse order of creation; and the event inventory update is
never among the applied operations at failure time (it is the last
fallible operation, so no failing run has applied it). -/
theorem c2_compensation_completeness (inp : BookInput) (ids : FreshIds)
    (st : Store2) (o : FbOracle) :
    (bookWithOptimisticLocking inp ids st o).success = false →
    (bookWithOptimisticLocking inp ids st o).deletesAttempted =
      (bookWithOptimisticLocking inp ids st o).createdDocs.reverse ∧
    (bookWithOptimisticLocking inp ids st o).eventUpdateApplied = false := by
  simp only [bookWithOptimisticLocking, fbCatch]
  repeat' split
  all_goals intro h
  all_goals simp_all

/-- Witness for C2: a run whose order create fails after two applied
creates attempts exactly those two deletes, most recent first. -/
theorem c2_compensation_completeness_w :
    (bookWithOptimisticLocking inpOk idsA stFb
        { createOrderErr := some JsErr.generic }).deletesAttempted =
      (bookWithOptimisticLocking inpOk idsA stFb
        { createOrderErr := some JsErr.generic }).createdDocs.reverse ∧
    (bookWithOptimisticLocking inpOk idsA stFb
        { createOrderErr := some JsErr.generic }).eventUpdateApplied = false :=
  c2_compensation_completeness inpOk idsA stFb { createOrderErr := some JsErr.generic }
    (by decide)

/-! ## C5: no second pre-write existence check in fallback mode -/

/-- C5 counterexample: a successful fallback booking performs exactly
one duplicate-payment existence check in its whole trace, yet writes
the transactions document - there is no second check immediately
before the write, contradicting the claimed check-again-then-write
pattern. -/
theorem c5_second_check_cex :
    countPayChecks (bookWithOptimisticLocking inpOk idsA stFb {}).trace = 1 ∧
    (bookWithOptimisticLocking inpOk idsA stFb {}).success = true ∧
    ("transactions", "x1") ∈ (bookWithOptimisticLocking inpOk idsA stFb {}).createdDocs := by
  decide

/-- C5 amended: the fallback performs at most one duplicate-payment
existence check per run (a single check before the writes; none
immediately before the write), and a hit at that single check
returns DUPLICATE_PAYMENT with nothing created and the store
untouched. -/
theorem c5_second_check_amended (inp : BookInput) (ids : FreshIds)
    (st : Store2) (o : FbOracle) :
    countPayChecks (bookWithOptimisticLocking inp ids st o).trace ≤ 1 ∧
    ((bookWithOptimisticLocking inp ids st o).code = "DUPLICATE_PAYMENT" →
      (bookWithOptimisticLocking inp ids st o).store = st ∧
      (bookWithOptimisticLocking inp ids st o).createdDocs = []) := by
  simp only [bookWithOptimisticLocking, fbCatch]
  repeat' split
  all_goals simp_all [countPayChecks]

/-- Witness for C5 amended at a duplicate submission. -/
theorem c5_second_check_amended_w :
    countPayChecks (bookWithOptimisticLocking inpOk idsB stDup {}).trace ≤ 1 ∧
    ((bookWithOptimisticLocking inpOk idsB stDup {}).code = "DUPLICATE_PAYMENT" →
      (bookWithOptimisticLocking inpOk idsB stDup {}).store = stDup ∧
      (bookWithOptimisticLocking inpOk idsB stDup {}).createdDocs = []) :=
  c5_second_check_amended inpOk idsB stDup {}

/-! ## C6: guarded reads and the transaction context -/

/-- C6 counterexample: a successful `bookWithTransactions` run issues
its duplicate-payment lookup outside the transaction context (the
trace records the list on the transactions collection with the
context flag false). -/
theorem c6_reads_in_context_cex :
    Eff.listDocs "transactions" false ∈ (bookWithTransactions inpOk idsA stFb {}).trace ∧
    (bookWithTransactions inpOk idsA stFb {}).success = true := by
  decide

/-- The trace of `bookFinish` only extends its input trace with
staged writes, commit and rollback markers: it keeps every guarded
read inside the context. -/
theorem bookFinish_reads (inp : BookInput) (tid : String) (ids : FreshIds)
    (st : Store) (o : ErrOracle) (q : Int) (ev : EventDoc) (tr : List Eff)
    (h : allGuardedReadsInCtx tr = true) :
    allGuardedReadsInCtx (bookFinish inp tid ids st o q ev tr).trace = true := by
  simp only [bookFinish, natCatch]
  repeat' split
  all_goals simp_all [allGuardedReadsInCtx]

/-- The trace of the signup catch handler keeps every guarded read of
its input trace inside the context (it adds only rollback markers and
file deletes). -/
theorem sgCatch_reads (o : SgOracle) (e : JsErr) (txn : Bool)
    (pic qr : Option String) (st : Store3) (tr : List Eff)
    (h : allGuardedReadsInCtx tr = true) :
    allGuardedReadsInCtx (sgCatch o e txn pic qr st tr).trace = true := by
  simp only [sgCatch]
  cases pic <;> cases qr <;>
    repeat' split
  all_goals simp_all [allGuardedReadsInCtx]

/-- Every guarded read the email phase of signup issues is inside the
context. -/
theorem sgEmailPhase_reads (inp : SignupInput) (st2 : Store3) (o : SgOracle)
    (uid picId qrId : String) (trR : List Eff)
    (h : allGuardedReadsInCtx trR = true) :
    allGuardedReadsInCtx (sgEmailPhase inp st2 o uid picId qrId trR).trace = true := by
  simp only [sgEmailPhase]
  repeat' split
  all_goals first
    | (apply sgCatch_reads; simp_all [allGuardedReadsInCtx])
    | simp_all [allGuardedReadsInCtx]

set_option maxHeartbeats 2000000 in
/-- C6 amended: in `bookTicketAtomic` and in the atomic signup, every
guarded read (duplicate payment, duplicate user, duplicate email,
event read) is issued inside the transaction context; in
`bookWithTransactions` the duplicate-payment lookup is never issued
inside the context. -/
theorem c6_reads_in_context_amended
    (i1 : BookInput) (ids1 : FreshIds) (s1 : Store) (o1 : ErrOracle)
    (sg : SignupInput) (s4 : Store3) (o4 : SgOracle)
    (i2 : BookInput) (ids2 : FreshIds) (s2 : Store2) (o2 : ErrOracle) :
    allGuardedReadsInCtx (bookTicketAtomicRun i1 ids1 s1 o1).trace = true ∧
    allGuardedReadsInCtx (atomicSignup sg s4 o4).trace = true ∧
    Eff.listDocs "transactions" true ∉ (bookWithTransactions i2 ids2 s2 o2).trace := by
  refine ⟨?_, ?_, ?_⟩
  · simp only [bookTicketAtomicRun, natCatch]
    repeat' split
    all_goals first
      | (apply bookFinish_reads; simp_all [allGuardedReadsInCtx])
      | simp_all [allGuardedReadsInCtx]
  · simp only [atomicSignup]
    repeat' split
    all_goals first
      | (apply sgCatch_reads; simp_all [allGuardedReadsInCtx])
      | (apply sgEmailPhase_reads; simp_all [allGuardedReadsInCtx])
      | simp_all [allGuardedReadsInCtx]
  · simp only [bookWithTransactions, btCatch]
    repeat' split
    all_goals simp_all

/-- Witness for C6 amended at concrete runs. -/
theorem c6_reads_in_context_amended_w :
    allGuardedReadsInCtx (bookTicketAtomicRun inpOk idsA stOk {}).trace = true ∧
    allGuardedReadsInCtx (atomicSignup sgInpOk st3Empty {}).trace = true ∧
    Eff.listDocs "transactions" true ∉ (bookWithTransactions inpOk idsA stFb {}).trace :=
  c6_reads_in_context_amended inpOk idsA stOk {} sgInpOk st3Empty {} inpOk idsA stFb {}

/-! ## C7: rollbackStatus reporting -/

/-- C7 counterexample: a fallback booking failure whose compensating
delete also fails responds without any rollbackStatus: compensation
ran (one delete was attempted), the ticket document is still in the
store, and no field of the response reports it. -/
theorem c7_rollback_status_cex :
    (bookWithOptimisticLocking inpOk idsA stFb
        { createTxDocErr := some JsErr.generic, deleteTicketOk := false }).success = false ∧
    (bookWithOptimisticLocking inpOk idsA stFb
        { createTxDocErr := some JsErr.generic, deleteTicketOk := false }).deletesAttempted =
      [("tickets", "t1")] ∧
    (bookWithOptimisticLocking inpOk idsA stFb
        { createTxDocErr := some JsErr.generic, deleteTicketOk := false }).rollbackStatus =
      none ∧
    "t1" ∈ (bookWithOptimisticLocking inpOk idsA stFb
        { createTxDocErr := some JsErr.generic, deleteTicketOk := false }).store.tickets := by
  decide

/-- Shape of the catch-handler response of signup, given that both
uploaded files are still in their buckets when the handler runs. -/
theorem sgCatch_statusOk (o : SgOracle) (e : JsErr) (txn : Bool)
    (picId qrId : String) (st : Store3) (tr : List Eff)
    (hp : picId ∈ st.picFiles) (hq : qrId ∈ st.qrFiles) :
    catchStatusOk (sgCatch o e txn (some picId) (some qrId) st tr) := by
  intro _
  simp only [sgCatch, cleanupUploadedFiles]
  refine ⟨_, _, _, rfl, picId, qrId, rfl, rfl, ?_, ?_⟩ <;>
    repeat' split
  all_goals simp_all [List.mem_filter]

/-- Catch responses of the email phase satisfy the rollbackStatus
shape. -/
theorem sgEmailPhase_statusOk (inp : SignupInput) (st2 : Store3) (o : SgOracle)
    (uid picId qrId : String) (trR : List Eff)
    (hp : picId ∈ st2.picFiles) (hq : qrId ∈ st2.qrFiles) :
    catchStatusOk (sgEmailPhase inp st2 o uid picId qrId trR) := by
  simp only [sgEmailPhase]
  repeat' split
  all_goals first
    | exact sgCatch_statusOk _ _ _ _ _ _ _ hp hq
    | simp [catchStatusOk]

/-- Non-catch responses of the email phase carry no rollbackStatus. -/
theorem sgEmailPhase_ncns (inp : SignupInput) (st2 : Store3) (o : SgOracle)
    (uid picId qrId : String) (trR : List Eff) :
    nonCatchNoStatus (sgEmailPhase inp st2 o uid picId qrId trR) := by
  simp only [sgEmailPhase]
  repeat' split
  all_goals simp [nonCatchNoStatus, sgCatch]

/-- C7 amended: only the signup catch handler reports a
rollbackStatus; it maps the three touched resources to booleans, and
the file entries are true exactly when the file is gone from
storage. Signup responses not produced by the catch handler (the
duplicate rejections included) carry no rollbackStatus, and the
fallback booking never carries one. -/
theorem c7_rollback_status_amended (inp : SignupInput) (st : Store3) (o : SgOracle)
    (fbInp : BookInput) (fbIds : FreshIds) (fbSt : Store2) (fbO : FbOracle) :
    catchStatusOk (atomicSignup inp st o) ∧
    nonCatchNoStatus (atomicSignup inp st o) ∧
    (bookWithOptimisticLocking fbInp fbIds fbSt fbO).rollbackStatus = none := by
  refine ⟨?_, ?_, ?_⟩
  · simp only [atomicSignup]
    repeat' split
    all_goals first
      | (apply sgCatch_statusOk <;> simp)
      | (apply sgEmailPhase_statusOk <;> simp)
      | simp [catchStatusOk]
  · simp only [atomicSignup]
    repeat' split
    all_goals first
      | exact sgEmailPhase_ncns _ _ _ _ _ _ _
      | simp [nonCatchNoStatus, sgCatch]
  · simp only [bookWithOptimisticLocking, fbCatch]
    repeat' split
    all_goals simp_all

/-- Witness for C7 amended at a signup whose commit fails. -/
theorem c7_rollback_status_amended_w :
    catchStatusOk (atomicSignup sgInpOk st3Empty { commitErr := some JsErr.generic }) ∧
    (bookWithOptimisticLocking inpOk idsA stFb {}).rollbackStatus = none :=
  ⟨(c7_rollback_status_amended sgInpOk st3Empty { commitErr := some JsErr.generic }
      inpOk idsA stFb {}).1,
   (c7_rollback_status_amended sgInpOk st3Empty { commitErr := some JsErr.generic }
      inpOk idsA stFb {}).2.2⟩

/-! ## C4: which rejections roll the transaction context back -/

/-- Every failure produced inside `bookFinish` (staging or commit)
goes through the catch handler: a rollback is attempted, the code is
a catch-handler code, and the store is untouched. -/
theorem bookFinish_fail (inp : BookInput) (tid : String) (ids : FreshIds)
    (st : Store) (o : ErrOracle) (q : Int) (ev : EventDoc) (tr : List Eff) :
    (bookFinish inp tid ids st o q ev tr).success = false →
    (bookFinish inp tid ids st o q ev tr).txnCreated = true ∧
    (bookFinish inp tid ids st o q ev tr).rollbackAttempted = true ∧
    (bookFinish inp tid ids st o q ev tr).code ≠ "INSUFFICIENT_TICKETS" ∧
    (bookFinish inp tid ids st o q ev tr).code ≠ "TICKET_TYPE_UNAVAILABLE" ∧
    (bookFinish inp tid ids st o q ev tr).store = st := by
  simp only [bookFinish, natCatch]
  repeat' split
  all_goals intro h
  all_goals simp_all

/-- A successful `bookFinish` returns the ticket id it staged and the
store with all four staged operations committed. -/
theorem bookFinish_succ (inp : BookInput) (tid : String) (ids : FreshIds)
    (st : Store) (o : ErrOracle) (q : Int) (ev : EventDoc) (tr : List Eff) :
    (bookFinish inp tid ids st o q ev tr).success = true →
    (bookFinish inp tid ids st o q ev tr).ticketId = some tid ∧
    (bookFinish inp tid ids st o q ev tr).store =
      applyBookingNative st ev tid ids.txDocId ids.orderId
        (inp.paymentId.getD "") (inp.ticketTypeName.getD "") q := by
  simp only [bookFinish, natCatch]
  repeat' split
  all_goals intro h
  all_goals simp_all

/-- C4 counterexample: an insufficient-inventory rejection of
`bookTicketAtomic` responds after the transaction context was
created without attempting any rollback of it. -/
theorem c4_rollback_before_failure_cex :
    (bookTicketAtomicRun inpOk idsA stLow {}).code = "INSUFFICIENT_TICKETS" ∧
    (bookTicketAtomicRun inpOk idsA stLow {}).success = false ∧
    (bookTicketAtomicRun inpOk idsA stLow {}).txnCreated = true ∧
    (bookTicketAtomicRun inpOk idsA stLow {}).rollbackAttempted = false := by
  decide

/-- C4 amended: after the context is created, a failing
`bookTicketAtomic` run attempts a rollback before responding exactly
when its code is neither INSUFFICIENT_TICKETS nor
TICKET_TYPE_UNAVAILABLE - duplicate rejections and caught errors roll
back, the two inventory rejections return with the context left
open. -/
theorem c4_rollback_before_failure_amended (inp : BookInput) (ids : FreshIds)
    (st : Store) (o : ErrOracle) :
    (bookTicketAtomicRun inp ids st o).success = false →
    (bookTicketAtomicRun inp ids st o).txnCreated = true →
    ((bookTicketAtomicRun inp ids st o).rollbackAttempted = true ↔
      ((bookTicketAtomicRun inp ids st o).code ≠ "INSUFFICIENT_TICKETS" ∧
       (bookTicketAtomicRun inp ids st o).code ≠ "TICKET_TYPE_UNAVAILABLE")) := by
  simp only [bookTicketAtomicRun, natCatch]
  repeat' split
  all_goals intro h1 h2
  all_goals first
    | (obtain ⟨-, hr, hc1, hc2, -⟩ := bookFinish_fail _ _ _ _ _ _ _ _ h1;
       exact ⟨fun _ => ⟨hc1, hc2⟩, fun _ => hr⟩)
    | simp_all

/-- Witness for C4 amended at the insufficient-inventory rejection. -/
theorem c4_rollback_before_failure_amended_w :
    (bookTicketAtomicRun inpOk idsA stLow {}).rollbackAttempted = true ↔
      ((bookTicketAtomicRun inpOk idsA stLow {}).code ≠ "INSUFFICIENT_TICKETS" ∧
       (bookTicketAtomicRun inpOk idsA stLow {}).code ≠ "TICKET_TYPE_UNAVAILABLE") :=
  c4_rollback_before_failure_amended inpOk idsA stLow {} (by decide) (by decide)

/-! ## C1: all-or-nothing -/

/-- Filtering out a freshly appended transaction document by its id
string restores the list. -/
theorem filter_txid_append2 (l : List TxDoc) (x p tid : String)
    (h : x ∉ l.map TxDoc.id) :
    (l ++ [(⟨x, p, tid⟩ : TxDoc)]).filter (fun u => u.id != x) = l :=
  filter_txid_append l ⟨x, p, tid⟩ h

/-- The empty compensation walk changes nothing. -/
theorem fbWalk0 (o : FbOracle) (st : Store2) : fbRollbackWalk o [] st = st := rfl

/-- Compensation after one applied create restores the store. -/
theorem fbWalk1 (o : FbOracle) (t : String) (stT stO : List String)
    (stX : List TxDoc) (stE : List EventDoc2)
    (hd : o.deleteTicketOk = true) (h : t ∉ stT) :
    fbRollbackWalk o [("tickets", t)] ⟨stT ++ [t], stX, stO, stE⟩ =
      ⟨stT, stX, stO, stE⟩ := by
  simp [fbRollbackWalk, fbDeleteOk, store2Delete, hd, forall_ne_iff_not_mem, h]

/-- Compensation after two applied creates restores the store. -/
theorem fbWalk2 (o : FbOracle) (t x p tid : String) (stT stO : List String)
    (stX : List TxDoc) (stE : List EventDoc2)
    (hd1 : o.deleteTicketOk = true) (hd2 : o.deleteTxDocOk = true)
    (h1 : t ∉ stT) (h2 : x ∉ stX.map TxDoc.id) :
    fbRollbackWalk o [("transactions", x), ("tickets", t)]
      ⟨stT ++ [t], stX ++ [⟨x, p, tid⟩], stO, stE⟩ = ⟨stT, stX, stO, stE⟩ := by
  simp [fbRollbackWalk, fbDeleteOk, store2Delete, hd1, hd2,
    forall_ne_iff_not_mem, forall_txid_ne_iff_not_mem, h1, h2]

/-- Compensation after three applied creates restores the store. -/
theorem fbWalk3 (o : FbOracle) (t x p tid od : String) (stT stO : List String)
    (stX : List TxDoc) (stE : List EventDoc2)
    (hd1 : o.deleteTicketOk = true) (hd2 : o.deleteTxDocOk = true)
    (hd3 : o.deleteOrderOk = true)
    (h1 : t ∉ stT) (h2 : x ∉ stX.map TxDoc.id) (h3 : od ∉ stO) :
    fbRollbackWalk o [("orders", od), ("transactions", x), ("tickets", t)]
      ⟨stT ++ [t], stX ++ [⟨x, p, tid⟩], stO ++ [od], stE⟩ = ⟨stT, stX, stO, stE⟩ := by
  simp [fbRollbackWalk, fbDeleteOk, store2Delete, hd1, hd2, hd3,
    forall_ne_iff_not_mem, forall_txid_ne_iff_not_mem, h1, h2, h3]

/-- If the email phase of signup fails, its compensation (transaction
rollback plus file deletes, all succeeding) restores the stores to
their pre-request state. -/
theorem sgEmailPhase_fail_store (inp : SignupInput) (o : SgOracle)
    (uid p q : String) (trR : List Eff) (u : List UserDoc) (pf qf : List String)
    (hpo : o.deletePicOk = true) (hqo : o.deleteQrOk = true)
    (hp : p ∉ pf) (hq : q ∉ qf) :
    (sgEmailPhase inp ⟨u, pf ++ [p], qf ++ [q]⟩ o uid p q trR).success = false →
    (sgEmailPhase inp ⟨u, pf ++ [p], qf ++ [q]⟩ o uid p q trR).store = ⟨u, pf, qf⟩ := by
  simp only [sgEmailPhase, sgCatch]
  repeat' split
  all_goals intro h
  all_goals simp_all [cleanupUploadedFiles, filter_bne_append,
    forall_ne_iff_not_mem, forall_txid_ne_iff_not_mem]

/-- A successful email phase commits exactly the user document on top
of the uploaded files. -/
theorem sgEmailPhase_succ_store (inp : SignupInput) (o : SgOracle)
    (uid p q : String) (trR : List Eff) (u : List UserDoc) (pf qf : List String) :
    (sgEmailPhase inp ⟨u, pf ++ [p], qf ++ [q]⟩ o uid p q trR).success = true →
    (sgEmailPhase inp ⟨u, pf ++ [p], qf ++ [q]⟩ o uid p q trR).store =
      ⟨u ++ [⟨uid, inp.email.getD ""⟩], pf ++ [p], qf ++ [q]⟩ ∧
    (sgEmailPhase inp ⟨u, pf ++ [p], qf ++ [q]⟩ o uid p q trR).uploadedPic = some p ∧
    (sgEmailPhase inp ⟨u, pf ++ [p], qf ++ [q]⟩ o uid p q trR).uploadedQr = some q := by
  simp only [sgEmailPhase, sgCatch]
  repeat' split
  all_goals intro h
  all_goals simp_all

/-- The store a signup catch response carries is the cleaned-up
store. -/
theorem sgCatch_store (o : SgOracle) (e : JsErr) (txn : Bool)
    (pic qr : Option String) (st : Store3) (tr : List Eff) :
    (sgCatch o e txn pic qr st tr).store = (cleanupUploadedFiles o pic qr st).1 := rfl

/-- A signup catch response is never a success. -/
theorem sgCatch_success (o : SgOracle) (e : JsErr) (txn : Bool)
    (pic qr : Option String) (st : Store3) (tr : List Eff) :
    (sgCatch o e txn pic qr st tr).success = false := rfl

/-- Deleting only the freshly uploaded profile picture restores the
buckets. -/
theorem cleanup_pic_only (o : SgOracle) (p : String) (u : List UserDoc)
    (pf qf : List String) (hpo : o.deletePicOk = true) (hp : p ∉ pf) :
    (cleanupUploadedFiles o (some p) none ⟨u, pf ++ [p], qf⟩).1 = ⟨u, pf, qf⟩ := by
  simp [cleanupUploadedFiles, hpo, forall_ne_iff_not_mem, hp]

/-- Deleting both freshly uploaded files restores the buckets. -/
theorem cleanup_both (o : SgOracle) (p q : String) (u : List UserDoc)
    (pf qf : List String) (hpo : o.deletePicOk = true) (hqo : o.deleteQrOk = true)
    (hp : p ∉ pf) (hq : q ∉ qf) :
    (cleanupUploadedFiles o (some p) (some q) ⟨u, pf ++ [p], qf ++ [q]⟩).1 =
      ⟨u, pf, qf⟩ := by
  simp [cleanupUploadedFiles, hpo, hqo, forall_ne_iff_not_mem, hp, hq]

/-- C1 counterexample: in fallback mode, when the transaction create
fails and the compensating delete of the already-created ticket also
fails, the run returns failure with the ticket document persisted and
the other staged resources absent - partial state survives. -/
theorem c1_no_partial_state_cex :
    (bookWithOptimisticLocking inpOk idsA stFb
        { createTxDocErr := some JsErr.generic, deleteTicketOk := false }).success = false ∧
    (bookWithOptimisticLocking inpOk idsA stFb
        { createTxDocErr := some JsErr.generic, deleteTicketOk := false }).store.tickets =
      ["t1"] ∧
    (bookWithOptimisticLocking inpOk idsA stFb
        { createTxDocErr := some JsErr.generic, deleteTicketOk := false }).store.transactions =
      [] ∧
    (bookWithOptimisticLocking inpOk idsA stFb
        { createTxDocErr := some JsErr.generic, deleteTicketOk := false }).store.orders =
      [] := by
  decide

set_option maxRecDepth 8192 in
/-- C1 amended: all-or-nothing holds provided every compensating
delete succeeds. Fallback booking: a failing run restores the store
exactly, and a successful run has all four staged resources applied.
Native booking: a failing run leaves the store untouched (staged
operations are discarded with the context) and a successful run has
ticket, transaction and order documents present and the staged event
inventory update committed. Signup: a failing
run restores users and both buckets, and a successful run has the
user document and both files present. -/
theorem c1_no_partial_state_amended
    (inp : BookInput) (ids : FreshIds) (st : Store2) (o : FbOracle)
    (ninp : BookInput) (nids : FreshIds) (nst : Store) (no1 : ErrOracle)
    (sg : SignupInput) (sst : Store3) (so : SgOracle)
    (hdel : o.deleteTicketOk = true ∧ o.deleteTxDocOk = true ∧ o.deleteOrderOk = true)
    (hsg : so.deletePicOk = true ∧ so.deleteQrOk = true) :
    fbAllOrNothing inp ids st (bookWithOptimisticLocking inp ids st o) ∧
    natAllOrNothing ninp nids nst (bookTicketAtomicRun ninp nids nst no1) ∧
    sgAllOrNothing (sg.userId.getD "") sst (atomicSignup sg sst so) := by
  obtain ⟨hd1, hd2, hd3⟩ := hdel
  obtain ⟨hs1, hs2⟩ := hsg
  obtain ⟨stT, stX, stO, stE⟩ := st
  obtain ⟨su, spf, sqf⟩ := sst
  refine ⟨?_, ?_, ?_⟩
  · simp only [bookWithOptimisticLocking, fbCatch]
    repeat' split
    all_goals refine ⟨fun hf => ?_, fun hs => ?_⟩
    all_goals first
      | exact absurd hf Bool.true_ne_false
      | exact absurd hs Bool.false_ne_true
      | rfl
      | (simp_all [fbWalk0, fbWalk1, fbWalk2, fbWalk3]; done)
      | simp [store2UpdateEvent]
  · simp only [bookTicketAtomicRun, natCatch]
    repeat' split
    all_goals refine ⟨fun hf => ?_, fun hs => ?_⟩
    all_goals first
      | exact absurd hs Bool.false_ne_true
      | rfl
      | exact (bookFinish_fail _ _ _ _ _ _ _ _ hf).2.2.2.2
      | (obtain ⟨hti, hst⟩ := bookFinish_succ _ _ _ _ _ _ _ _ hs;
         simp only [List.cons_append, List.nil_append] at hti hst;
         refine ⟨_, hti, by simp [hst, applyBookingNative],
           by simp [hst, applyBookingNative], by simp [hst, applyBookingNative],
           _, _, by assumption, by assumption,
           by simp only [List.cons_append, List.nil_append]; rw [hst]⟩)
  · simp only [atomicSignup]
    repeat' split
    all_goals refine ⟨fun hf => ?_, fun hs => ?_⟩
    all_goals first
      | exact absurd hs Bool.false_ne_true
      | rfl
      | exact cleanup_pic_only _ _ _ _ _ hs1 (by simp_all)
      | exact cleanup_both _ _ _ _ _ _ hs1 hs2 (by simp_all) (by simp_all)
      | exact sgEmailPhase_fail_store _ _ _ _ _ _ _ _ _ hs1 hs2
          (by simp_all) (by simp_all) hf
      | (obtain ⟨hst, hpi, hqi⟩ := sgEmailPhase_succ_store _ _ _ _ _ _ _ _ _ hs;
         simp only [List.cons_append, List.nil_append] at hst hpi hqi;
         exact ⟨_, _, hpi, hqi, by simp [hst], by simp [hst], by simp [hst]⟩)

/-! ## C3: idempotency on the payment id -/

/-- Facts a successful `bookTicketAtomic` run certifies: no existing
transaction document carried its payment id, the input passed
validation, and the final store is the initial one with the staged
booking applied. -/
theorem bookRun_succ (inp : BookInput) (ids : FreshIds) (st : Store) (o : ErrOracle) :
    (bookTicketAtomicRun inp ids st o).success = true →
    txMatches st (inp.paymentId.getD "") = [] ∧
    ∃ q ev tid,
      jsParseInt (inp.quantity.getD "") = some q ∧
      st.events.find? (fun e => e.id == inp.eventId.getD "") = some ev ∧
      (bookTicketAtomicRun inp ids st o).ticketId = some tid ∧
      (bookTicketAtomicRun inp ids st o).store =
        applyBookingNative st ev tid ids.txDocId ids.orderId
          (inp.paymentId.getD "") (inp.ticketTypeName.getD "") q ∧
      (falsy inp.userId || falsy inp.eventId || falsy inp.paymentId ||
        falsy inp.quantity || falsy inp.ticketTypeName) = false ∧
      ¬(q < 1 ∨ 10 < q) := by
  simp only [bookTicketAtomicRun, natCatch]
  repeat' split
  all_goals intro h
  all_goals first
    | exact absurd h Bool.false_ne_true
    | (obtain ⟨hti, hst⟩ := bookFinish_succ _ _ _ _ _ _ _ _ h;
       refine ⟨by assumption, _, _, _, by assumption, by assumption, hti, hst,
         by simp_all, by assumption⟩)

/-- Witness for C1 amended at concrete runs with all deletes
succeeding. -/
theorem c1_no_partial_state_amended_w :
    fbAllOrNothing inpOk idsA stFb (bookWithOptimisticLocking inpOk idsA stFb {}) ∧
    natAllOrNothing inpOk idsA stOk (bookTicketAtomicRun inpOk idsA stOk {}) ∧
    sgAllOrNothing (sgInpOk.userId.getD "") st3Empty (atomicSignup sgInpOk st3Empty {}) :=
  c1_no_partial_state_amended inpOk idsA stFb {} inpOk idsA stOk {} sgInpOk st3Empty {}
    ⟨rfl, rfl, rfl⟩ ⟨rfl, rfl⟩

/-- C3 counterexample: resubmitting a fallback booking with the same
payment id is rejected with DUPLICATE_PAYMENT and creates nothing,
but the rejection carries no reference to the first submission's
ticket identifier (the fallback response has no existingTicketId
field). -/
theorem c3_idempotency_cex :
    (bookWithOptimisticLocking inpOk idsB
        (bookWithOptimisticLocking inpOk idsA stFb {}).store {}).code =
      "DUPLICATE_PAYMENT" ∧
    (bookWithOptimisticLocking inpOk idsB
        (bookWithOptimisticLocking inpOk idsA stFb {}).store {}).existingTicketId =
      none ∧
    (bookWithOptimisticLocking inpOk idsB
        (bookWithOptimisticLocking inpOk idsA stFb {}).store {}).store =
      (bookWithOptimisticLocking inpOk idsA stFb {}).store := by
  decide

/-- C3 amended: in the native `bookTicketAtomic`, resubmitting the
same request (same payment id) after a successful booking fails with
DUPLICATE_PAYMENT, carries the first submission's ticket identifier
in existingTicketId, and creates nothing; the optimistic-locking
fallback also rejects the duplicate and creates nothing, but omits
the ticket reference. -/
theorem c3_idempotency_amended (inp : BookInput) (ids1 ids2 : FreshIds) (st : Store)
    (h : (bookTicketAtomicRun inp ids1 st {}).success = true) :
    (bookTicketAtomicRun inp ids2 (bookTicketAtomicRun inp ids1 st {}).store {}).success =
      false ∧
    (bookTicketAtomicRun inp ids2 (bookTicketAtomicRun inp ids1 st {}).store {}).code =
      "DUPLICATE_PAYMENT" ∧
    (bookTicketAtomicRun inp ids2 (bookTicketAtomicRun inp ids1 st {}).store {}).existingTicketId =
      (bookTicketAtomicRun inp ids1 st {}).ticketId ∧
    (bookTicketAtomicRun inp ids2 (bookTicketAtomicRun inp ids1 st {}).store {}).store =
      (bookTicketAtomicRun inp ids1 st {}).store := by
  obtain ⟨hdup, q, ev, tid, hq, hev, hti, hst, hval, hrange⟩ := bookRun_succ inp ids1 st {} h
  have hmatch : txMatches
      (applyBookingNative st ev tid ids1.txDocId ids1.orderId
        (inp.paymentId.getD "") (inp.ticketTypeName.getD "") q)
      (inp.paymentId.getD "") = [⟨ids1.txDocId, inp.paymentId.getD "", tid⟩] := by
    unfold txMatches at hdup ⊢
    simp [applyBookingNative, List.filter_append, hdup]
  rw [hti, hst]
  simp [bookTicketAtomicRun, hval, hq, hrange, hmatch]

/-- Witness for C3 amended: a concrete successful booking followed by
an identical resubmission. -/
theorem c3_idempotency_amended_w :
    (bookTicketAtomicRun inpOk idsB (bookTicketAtomicRun inpOk idsA stOk {}).store {}).success =
      false ∧
    (bookTicketAtomicRun inpOk idsB (bookTicketAtomicRun inpOk idsA stOk {}).store {}).code =
      "DUPLICATE_PAYMENT" ∧
    (bookTicketAtomicRun inpOk idsB (bookTicketAtomicRun inpOk idsA stOk {}).store {}).existingTicketId =
      (bookTicketAtomicRun inpOk idsA stOk {}).ticketId ∧
    (bookTicketAtomicRun inpOk idsB (bookTicketAtomicRun inpOk idsA stOk {}).store {}).store =
      (bookTicketAtomicRun inpOk idsA stOk {}).store :=
  c3_idempotency_amended inpOk idsA idsB stOk (by decide)

end SwipeSpec
